import Mathlib

/-!
Verification development for the openmeters capture + metering pipeline
(src/core/audio/wasapi-capture.h, audio-engine.h/.cpp).

The C++ is embedded shallowly:

* float32 samples are modelled by their exact rational value; the only
  lossy floating-point operation on the capture path is the
  `static_cast<float>` applied to an int32 sample, which we model by an
  explicit round-to-nearest-even at 24 significant bits (`castFloat32`).
  The subsequent multiplication by the scale constants 1/32768 = 2^-15 and
  1/2147483648 = 2^-31 (both exactly representable binary32 values) only
  shifts the exponent of a binary32 operand and stays well inside the
  normal range, so it is exact and is modelled by exact rational
  multiplication.
* raw device buffers are byte memory; we model the three typed
  reinterpretations the code uses (`RawBytes`).
* WASAPI/COM calls are modelled by an environment of call outcomes
  (`OsEnv`); the pointer/handle members of `WasapiCapture` become boolean
  "held" flags in `CaptureState`.
* the meters (src/core/meters/peak-meter.cpp, rms-meter.cpp) and
  src/common/audio-format.h are not part of the sources at hand; they are
  modelled from the specification where marked.
-/

namespace OpenMeters

/-- Round a rational to the nearest integer, ties to even. -/
def roundNearestEven (q : ℚ) : ℤ :=
  let f : ℤ := ⌊q⌋
  let r : ℚ := q - (f : ℚ)
  if r < 1 / 2 then f
  else if 1 / 2 < r then f + 1
  else if f % 2 = 0 then f else f + 1

/-- Exact value of `static_cast<float>(x)` for an integer `x` in int32 range:
IEEE-754 binary32 keeps 24 significant bits and rounds to nearest, ties to
even.  The cast is exact whenever the magnitude is at most 2^24. -/
def castFloat32 (x : ℤ) : ℚ :=
  if x.natAbs ≤ 2 ^ 24 then (x : ℚ)
  else
    let s : ℕ := x.natAbs.log2 - 23
    (roundNearestEven ((x : ℚ) / 2 ^ s) : ℚ) * 2 ^ s

/-- The `wFormatTag` values `initialize`/`convertToFloat32` distinguish:
WAVE_FORMAT_PCM, WAVE_FORMAT_IEEE_FLOAT, anything else. -/
inductive FormatTag
  | pcm
  | ieeeFloat
  | other
deriving DecidableEq, Repr

/-- The fields of the negotiated `WAVEFORMATEX` that the code reads. -/
structure WaveFormatEx where
  wFormatTag : FormatTag
  nChannels : ℕ
  wBitsPerSample : ℕ
  nSamplesPerSec : ℕ
deriving DecidableEq, Repr

/-- `common::AudioFormat` (sample rate and channel count), as stored by
`WasapiCapture::initialize` from the negotiated wave format. -/
structure AudioFormat where
  sampleRate : ℕ
  channelCount : ℕ
deriving DecidableEq, Repr

/-- Modelled from the spec: src/common/audio-format.h is not among the
sources.  Interleaving is frame-major, channel-minor with one sample per
channel per frame, so a frame holds `channelCount` samples. -/
def AudioFormat.samplesPerFrame (f : AudioFormat) : ℕ :=
  f.channelCount

/-- A raw device buffer is untyped byte memory; the capture code
reinterprets it as float32, int16 or int32 samples.  We model the three
typed views of the same memory, indexed sample-wise. -/
structure RawBytes where
  asFloat32 : ℕ → ℚ
  asInt16 : ℕ → ℤ
  asInt32 : ℕ → ℤ

/-- `WasapiCapture::convertToFloat32` (audio-engine.h lines 412-457).
Mirrors the source branch for branch:

* guard: null source/dest/waveFormat or `numFrames == 0` leaves the
  destination untouched (modelled as the empty write);
* IEEE float: plain copy of `numFrames * channels` samples;
* PCM 16-bit: frame-major/channel-minor double loop writing
  `float(src[i]) * (1.0f/32768.0f)` at the same index (the cast of an
  int16 and the scale by 2^-15 are exact in binary32);
* PCM 32-bit: same loop with `float(src[i]) * (1.0f/2147483648.0f)`;
  the int32 cast rounds (`castFloat32`), the scale by 2^-31 is exact;
* other bit depth or tag: destination zero-filled. -/
def convertToFloat32 (wf : WaveFormatEx) (src : RawBytes) (numFrames : ℕ) : List ℚ :=
  if numFrames = 0 then []
  else if wf.wFormatTag = FormatTag.ieeeFloat then
    (List.range (numFrames * wf.nChannels)).map src.asFloat32
  else if wf.wFormatTag = FormatTag.pcm then
    if wf.wBitsPerSample = 16 then
      (List.range numFrames).flatMap (fun frame =>
        (List.range wf.nChannels).map (fun ch =>
          castFloat32 (src.asInt16 (frame * wf.nChannels + ch)) * (1 / 32768)))
    else if wf.wBitsPerSample = 32 then
      (List.range numFrames).flatMap (fun frame =>
        (List.range wf.nChannels).map (fun ch =>
          castFloat32 (src.asInt32 (frame * wf.nChannels + ch)) * (1 / 2147483648)))
    else
      List.replicate (numFrames * wf.nChannels) 0
  else
    List.replicate (numFrames * wf.nChannels) 0

/-- Callback pointers, modelled as naturals with `0` playing `nullptr`. -/
abbrev CallbackPtr := ℕ

/-- `WasapiCapture::registerCallback` / `AudioEngine::registerCallback`
(identical code): null is a no-op, otherwise `push_back`. -/
def registerCallback (cbs : List CallbackPtr) (c : CallbackPtr) : List CallbackPtr :=
  if c = 0 then cbs else cbs ++ [c]

/-- `WasapiCapture::unregisterCallback` / `AudioEngine::unregisterCallback`
(identical code): null is a no-op, otherwise the erase-remove idiom, which
deletes every element equal to `c` and keeps the order of the rest. -/
def unregisterCallback (cbs : List CallbackPtr) (c : CallbackPtr) : List CallbackPtr :=
  if c = 0 then cbs else cbs.filter (fun x => x ≠ c)

/-- `common::MeterLevels`-style per-channel level pair (spec §3:
Per-Channel Level, left/right floats).  Levels carry the reals the meters
compute; for mono input right mirrors left. -/
structure PerChannelLevel where
  left : ℝ
  right : ℝ

/-- `common::MeterSnapshot` (spec §3): peak and RMS levels plus an integer
millisecond timestamp. -/
structure MeterSnapshot where
  peak : PerChannelLevel
  rms : PerChannelLevel
  timestampMs : ℤ

/-- Clamp a rational to the unit interval. -/
def clamp01 (q : ℚ) : ℚ :=
  min 1 (max 0 q)

/-- Clamp a real to the unit interval. -/
noncomputable def clamp01R (x : ℝ) : ℝ :=
  min 1 (max 0 x)

/-- The samples of channel `ch` in an interleaved buffer with `channels`
samples per frame: positions `frame * channels + ch` (out-of-range reads
give 0, matching a buffer sized to `frameCount * channels`). -/
def channelSamples (buf : List ℚ) (channels frameCount ch : ℕ) : List ℚ :=
  (List.range frameCount).map (fun frame => buf.getD (frame * channels + ch) 0)

/-- Modelled from the spec: src/core/meters/peak-meter.cpp is not among the
sources.  Spec §4.3: per channel, the maximum absolute value of every
sample of that channel across the buffer, clamped to [0,1]. -/
def peakChannel (buf : List ℚ) (channels frameCount ch : ℕ) : ℚ :=
  clamp01 ((channelSamples buf channels frameCount ch).foldr (fun x m => max |x| m) 0)

/-- Modelled from the spec: Peak Meter `process`; mono input reports the
single channel as both left and right (spec §4.3). -/
noncomputable def peakProcess (buf : List ℚ) (frameCount : ℕ) (fmt : AudioFormat) : PerChannelLevel :=
  let l : ℝ := (peakChannel buf fmt.channelCount frameCount 0 : ℚ)
  if 2 ≤ fmt.channelCount then
    ⟨l, ((peakChannel buf fmt.channelCount frameCount 1 : ℚ) : ℝ)⟩
  else ⟨l, l⟩

/-- Sum of squares of a channel's samples (the spec's double-precision
accumulation, modelled exactly). -/
def sumSquares (buf : List ℚ) (channels frameCount ch : ℕ) : ℚ :=
  (channelSamples buf channels frameCount ch).foldr (fun x a => x ^ 2 + a) 0

/-- Modelled from the spec: src/core/meters/rms-meter.cpp is not among the
sources.  Spec §4.3: sum of squares divided by the channel's sample count,
square root, clamp to [0,1]; a zero-length buffer yields 0. -/
noncomputable def rmsChannel (buf : List ℚ) (channels frameCount ch : ℕ) : ℝ :=
  if frameCount = 0 then 0
  else clamp01R (Real.sqrt ((sumSquares buf channels frameCount ch : ℚ) / (frameCount : ℝ)))

/-- Modelled from the spec: RMS Meter `process`; mono mirrors left into
right (spec §4.3). -/
noncomputable def rmsProcess (buf : List ℚ) (frameCount : ℕ) (fmt : AudioFormat) : PerChannelLevel :=
  let l : ℝ := rmsChannel buf fmt.channelCount frameCount 0
  if 2 ≤ fmt.channelCount then
    ⟨l, rmsChannel buf fmt.channelCount frameCount 1⟩
  else ⟨l, l⟩

/-- `AudioEngine::MeteringCallback::onAudioData`
(audio-engine.cpp lines 97-119): null buffer or zero frame count returns
without producing a snapshot; otherwise it runs both meters and builds a
snapshot whose `timestampMs` is assigned the constant 0. -/
noncomputable def meteringOnAudioData (buffer : Option (List ℚ)) (frameCount : ℕ)
    (fmt : AudioFormat) : Option MeterSnapshot :=
  match buffer with
  | none => none
  | some buf =>
    if frameCount = 0 then none
    else
      some { peak := peakProcess buf frameCount fmt
             rms := rmsProcess buf frameCount fmt
             timestampMs := 0 }

/-- `AudioEngine::forwardMeterData` (audio-engine.cpp lines 81-88): under
the callback lock, deliver the same snapshot to every non-null registered
callback, in registration order. -/
def forwardMeterData (cbs : List CallbackPtr) (snap : MeterSnapshot) :
    List (CallbackPtr × MeterSnapshot) :=
  cbs.filterMap (fun c => if c ≠ 0 then some (c, snap) else none)

/-- `WasapiCapture::processAudioData` (audio-engine.h lines 385-410),
restricted to the production of `m_floatBuffer` (the callback fan-out is
modelled by `forwardMeterData`/`deliverAudio`).  Null data or zero frames
return with the previous buffer untouched; a buffer the device flagged
silent is zero-filled without calling the converter; otherwise the buffer
is the converter's output. -/
def processAudioData (prev : List ℚ) (fmt : AudioFormat) (wf : WaveFormatEx)
    (src : Option RawBytes) (numFrames : ℕ) (silent : Bool) : List ℚ :=
  match src with
  | none => prev
  | some raw =>
    if numFrames = 0 then prev
    else if silent then List.replicate (numFrames * fmt.samplesPerFrame) 0
    else convertToFloat32 wf raw numFrames

/-- The raw-audio fan-out at the end of `WasapiCapture::processAudioData`:
every non-null registered callback receives the same borrowed buffer. -/
def deliverAudio (cbs : List CallbackPtr) (buf : List ℚ) (numFrames : ℕ) :
    List (CallbackPtr × List ℚ × ℕ) :=
  cbs.filterMap (fun c => if c ≠ 0 then some (c, buf, numFrames) else none)

/-- Outcomes of the OS/COM calls made by `WasapiCapture`: which call
succeeds, and which mix format `GetMixFormat` hands back. -/
structure OsEnv where
  coInitOk : Bool
  createEnumeratorOk : Bool
  getEndpointOk : Bool
  activateOk : Bool
  getMixFormatOk : Bool
  mixFormat : WaveFormatEx
  clientInitOk : Bool
  getServiceOk : Bool
  createEventOk : Bool
  clientStartOk : Bool
  threadCreateOk : Bool
deriving DecidableEq, Repr

/-- The members of `WasapiCapture` relevant to lifecycle and resource
claims.  COM interface pointers and handles become "held" booleans;
`deviceStarted` tracks whether the device stream is running
(`m_audioClient->Start()` vs `Stop()`). -/
structure CaptureState where
  deviceEnumerator : Bool
  device : Bool
  audioClient : Bool
  captureClient : Bool
  waveFormat : Option WaveFormatEx
  format : AudioFormat
  capturing : Bool
  captureThread : Bool
  stopEvent : Bool
  stopSignaled : Bool
  comInitialized : Bool
  deviceStarted : Bool
  callbacks : List CallbackPtr
deriving DecidableEq, Repr

/-- A freshly constructed `WasapiCapture`: every pointer null, every flag
false (wasapi-capture.h member initializers). -/
def initState : CaptureState :=
  { deviceEnumerator := false
    device := false
    audioClient := false
    captureClient := false
    waveFormat := none
    format := { sampleRate := 0, channelCount := 0 }
    capturing := false
    captureThread := false
    stopEvent := false
    stopSignaled := false
    comInitialized := false
    deviceStarted := false
    callbacks := [] }

/-- `WasapiCapture::releaseCom` (audio-engine.h lines 486-491): only
uninitializes COM (when it was initialized); touches no interface
pointer. -/
def releaseCom (s : CaptureState) : CaptureState :=
  { s with comInitialized := false }

/-- `WasapiCapture::releaseAudioClient` (audio-engine.h lines 459-484):
releases capture client, audio client, device, enumerator and frees the
wave format, each guarded by a null check (a guarded release of an absent
resource is the identity on that field). -/
def releaseAudioClient (s : CaptureState) : CaptureState :=
  { s with
    captureClient := false
    audioClient := false
    device := false
    deviceEnumerator := false
    waveFormat := none }

/-- `WasapiCapture::initialize` (audio-engine.h lines 99-210), step for
step.  Note which cleanup each failure path actually performs: every path
calls only `releaseCom` (plus, on the three format-validation paths,
`CoTaskMemFree(m_waveFormat)`); none calls `releaseAudioClient`. -/
def wasapiInit (env : OsEnv) (s : CaptureState) : Bool × CaptureState :=
  if s.comInitialized then (true, s)
  else if ¬env.coInitOk then (false, s)
  else
    let s1 := { s with comInitialized := true }
    if ¬env.createEnumeratorOk then (false, releaseCom s1)
    else
      let s2 := { s1 with deviceEnumerator := true }
      if ¬env.getEndpointOk then (false, releaseCom s2)
      else
        let s3 := { s2 with device := true }
        if ¬env.activateOk then (false, releaseCom s3)
        else
          let s4 := { s3 with audioClient := true }
          if ¬env.getMixFormatOk then (false, releaseCom s4)
          else
            let s5 := { s4 with waveFormat := some env.mixFormat }
            if env.mixFormat.wFormatTag ≠ FormatTag.pcm ∧
                env.mixFormat.wFormatTag ≠ FormatTag.ieeeFloat then
              (false, releaseCom { s5 with waveFormat := none })
            else
              let s6 := { s5 with
                format := { sampleRate := env.mixFormat.nSamplesPerSec
                            channelCount := env.mixFormat.nChannels } }
              if s6.format.channelCount < 1 ∨ 2 < s6.format.channelCount then
                (false, releaseCom { s6 with waveFormat := none })
              else if ¬env.clientInitOk then
                (false, releaseCom { s6 with waveFormat := none })
              else if ¬env.getServiceOk then (false, releaseCom s6)
              else
                let s7 := { s6 with captureClient := true }
                if ¬env.createEventOk then (false, releaseCom s7)
                else (true, { s7 with stopEvent := true })

/-- `WasapiCapture::start` (audio-engine.h lines 212-251): no-op success
when already capturing; failure when the clients are missing; resets the
stop event; starts the device stream; sets the capturing flag; on thread
creation failure stops the stream again, clears the flag and fails. -/
def startCapture (env : OsEnv) (s : CaptureState) : Bool × CaptureState :=
  if s.capturing then (true, s)
  else if ¬s.audioClient ∨ ¬s.captureClient then (false, s)
  else
    let s1 := { s with stopSignaled := false }
    if ¬env.clientStartOk then (false, s1)
    else
      let s2 := { s1 with deviceStarted := true, capturing := true }
      if ¬env.threadCreateOk then
        (false, { s2 with deviceStarted := false, capturing := false })
      else (true, { s2 with captureThread := true })

/-- `WasapiCapture::stop` (audio-engine.h lines 253-276): no-op when not
capturing; otherwise clears the flag, signals the stop event (if the event
exists), stops the audio client (if it exists), joins and closes the
capture thread (if it exists). -/
def stop (s : CaptureState) : CaptureState :=
  if ¬s.capturing then s
  else
    { s with
      capturing := false
      stopSignaled := if s.stopEvent then true else s.stopSignaled
      deviceStarted := if s.audioClient then false else s.deviceStarted
      captureThread := false }

/-- `WasapiCapture::shutdown` (audio-engine.h lines 278-288): `stop()`,
then `releaseAudioClient()`, then `releaseCom()`, then close the stop
event (if it exists). -/
def shutdown (s : CaptureState) : CaptureState :=
  let s1 := stop s
  let s2 := releaseAudioClient s1
  let s3 := releaseCom s2
  { s3 with stopEvent := false }

/-- `AudioEngine` state: the owned `WasapiCapture` plus the engine's own
callback list (its metering callback is a fixed non-null pointer). -/
structure EngineState where
  capture : CaptureState
  engineCallbacks : List CallbackPtr
deriving DecidableEq, Repr

/-- The address of the engine's internal `MeteringCallback` member (any
fixed non-null pointer). -/
def meteringCbPtr : CallbackPtr := 1

/-- `AudioEngine::shutdown` (audio-engine.cpp lines 37-50): stop, then
unregister the internal metering callback from the capture, clear the
external callback list, and shut the capture down. -/
def engineShutdown (e : EngineState) : EngineState :=
  let cap1 := stop e.capture
  let cap2 := { cap1 with callbacks := unregisterCallback cap1.callbacks meteringCbPtr }
  { capture := shutdown cap2, engineCallbacks := [] }

/-- What `IAudioCaptureClient::GetBuffer` returns in one loop iteration:
failure, or a packet with a frame count, the silent flag, and whether the
data pointer is null. -/
inductive GetBufferResult
  | fail
  | ok (frames : ℕ) (silent : Bool) (dataNull : Bool)
deriving DecidableEq, Repr

/-- Environment of one iteration of `WasapiCapture::captureThread`: whether
the bounded wait saw the stop event, and what `GetBuffer` returned. -/
structure IterEnv where
  stopSignal : Bool
  getBuffer : GetBufferResult
deriving DecidableEq, Repr

/-- Observable device/callback actions of the capture loop. -/
inductive DevEvent
  | acquire (frames : ℕ)
  | acquireFail
  | deliver (frames : ℕ)
  | release (frames : ℕ)
deriving DecidableEq, Repr

/-- One iteration of the loop body of `WasapiCapture::captureThread`
(audio-engine.h lines 331-382).  Returns whether the loop continues and
the trace of device actions: stop signal breaks with no device access;
a failed `GetBuffer` just continues (the `AUDCLNT_E_BUFFER_ERROR` branch
does nothing before the `continue`); an empty packet is released with 0
frames and no processing; a packet with a null data pointer skips
processing but is still released; otherwise the buffer is processed
(callback delivery) and released with its frame count. -/
def captureIteration (env : IterEnv) : Bool × List DevEvent :=
  if env.stopSignal then (false, [])
  else
    match env.getBuffer with
    | GetBufferResult.fail => (true, [DevEvent.acquireFail])
    | GetBufferResult.ok frames _silent dataNull =>
      if frames = 0 then
        (true, [DevEvent.acquire 0, DevEvent.release 0])
      else if dataNull then
        (true, [DevEvent.acquire frames, DevEvent.release frames])
      else
        (true, [DevEvent.acquire frames, DevEvent.deliver frames,
                DevEvent.release frames])

/-- The capture loop over a finite schedule of iteration environments
(the `while (m_capturing)` loop; a cleared capturing flag or the stop
event ends it, modelled by `stopSignal`). -/
def captureLoop : List IterEnv → List DevEvent
  | [] => []
  | e :: rest =>
    let step := captureIteration e
    if step.1 then step.2 ++ captureLoop rest else step.2

/-- Number of successful buffer acquisitions in a trace. -/
def countAcquires (tr : List DevEvent) : ℕ :=
  (tr.filter (fun e => match e with | DevEvent.acquire _ => true | _ => false)).length

/-- Number of buffer releases in a trace. -/
def countReleases (tr : List DevEvent) : ℕ :=
  (tr.filter (fun e => match e with | DevEvent.release _ => true | _ => false)).length

/-! ## Helper lemmas -/

theorem formatTag_pcm_ne_ieee : (FormatTag.pcm = FormatTag.ieeeFloat) = False := by
  decide

theorem formatTag_pcm_ne_other : (FormatTag.pcm = FormatTag.other) = False := by
  decide

theorem formatTag_ieee_ne_pcm : (FormatTag.ieeeFloat = FormatTag.pcm) = False := by
  decide

theorem castFloat32_eq_self {x : ℤ} (h : x.natAbs ≤ 2 ^ 24) : castFloat32 x = (x : ℚ) := by
  unfold castFloat32
  rw [if_pos h]

theorem unregister_not_mem {cbs : List CallbackPtr} {c : CallbackPtr} (h : c ∉ cbs) :
    unregisterCallback cbs c = cbs := by
  unfold unregisterCallback
  split
  · rfl
  · exact List.filter_eq_self.mpr (fun a ha => by
      simp only [ne_eq, decide_eq_true_eq]
      exact fun hac => h (hac ▸ ha))

/-! ## Claim C5 -/

/-- C5 (counterexample): registering an already-registered callback is not
idempotent — `push_back` appends a second copy, so registering the
callback 1 twice on the empty set yields a two-element list, not the
one-element list a single registration yields. -/
theorem C5_counterexample :
    registerCallback (registerCallback [] 1) 1 ≠ registerCallback [] 1 := by
  norm_num [registerCallback]

/-- C5 (amended): registering a null reference leaves the set unchanged
and unregistering a reference not in the set leaves the set unchanged; but
registering an already-registered callback appends a duplicate entry (the
set after two registrations is the set after one with a second copy of the
callback appended, and the callback is delivered once per copy during
fan-out).  Unregistering removes every copy at once. -/
theorem C5_callbackSet (cbs : List CallbackPtr) (c : CallbackPtr) (snap : MeterSnapshot) :
    registerCallback cbs 0 = cbs ∧
    (c ∉ cbs → unregisterCallback cbs c = cbs) ∧
    (c ≠ 0 → registerCallback (registerCallback cbs c) c = cbs ++ [c, c]) ∧
    (c ≠ 0 →
      ((forwardMeterData (registerCallback (registerCallback cbs c) c) snap).map
          Prod.fst).count c =
        ((forwardMeterData (registerCallback cbs c) snap).map Prod.fst).count c + 1) ∧
    unregisterCallback (registerCallback (registerCallback cbs c) c) c =
      unregisterCallback cbs c := by
  refine ⟨by simp [registerCallback], fun h => unregister_not_mem h, fun hc => ?_, fun hc => ?_, ?_⟩
  · simp [registerCallback, hc]
  · simp [registerCallback, forwardMeterData, hc, List.filterMap_append, List.count_append]
  · by_cases hc : c = 0
    · simp [registerCallback, hc]
    · simp [registerCallback, unregisterCallback, hc, List.filter_append]

/-- C5 (witness): concrete instances — unregistering 3 from [5] is a
no-op, and registering 1 twice on the empty set yields [1, 1]. -/
theorem C5_witness :
    unregisterCallback [5] 3 = [5] ∧
    registerCallback (registerCallback [] 1) 1 = [] ++ [1, 1] := by
  have h := C5_callbackSet [5] 3 ⟨⟨0, 0⟩, ⟨0, 0⟩, 0⟩
  have h2 := C5_callbackSet [] 1 ⟨⟨0, 0⟩, ⟨0, 0⟩, 0⟩
  exact ⟨h.2.1 (by norm_num), h2.2.2.1 (by norm_num)⟩

/-! ## Claim C3 -/

/-- C3 (code bug): when `GetDefaultAudioEndpoint` fails after the device
enumerator was created, `initialize()` returns false having called only
`releaseCom()` — the enumerator is still held when the call returns, so
not every partially-acquired resource is released.  (The later failure
paths likewise leak the device, the audio client, the capture client and,
from the `GetService` path on, the wave format.) -/
theorem C3_initLeak :
    (wasapiInit
        ⟨true, true, false, true, true, ⟨FormatTag.ieeeFloat, 2, 32, 48000⟩,
          true, true, true, true, true⟩ initState).1 = false ∧
    (wasapiInit
        ⟨true, true, false, true, true, ⟨FormatTag.ieeeFloat, 2, 32, 48000⟩,
          true, true, true, true, true⟩ initState).2.deviceEnumerator = true ∧
    (wasapiInit
        ⟨true, true, false, true, true, ⟨FormatTag.ieeeFloat, 2, 32, 48000⟩,
          true, true, true, true, true⟩ initState).2.comInitialized = false := by
  norm_num [wasapiInit, initState, releaseCom]

/-! ## Claim C4 -/

/-- C4 (counterexample): with every OS call succeeding and a negotiated
format of 24-bit integer PCM (stereo), `initialize()` returns true — a PCM
bit depth outside {16, 32} does not make it fail. -/
theorem C4_counterexample :
    (wasapiInit
        ⟨true, true, true, true, true, ⟨FormatTag.pcm, 2, 24, 48000⟩,
          true, true, true, true, true⟩ initState).1 = true ∧
    (24 : ℕ) ≠ 16 ∧ (24 : ℕ) ≠ 32 := by
  norm_num [wasapiInit, initState]

/-- C4 (amended): when every OS call succeeds, `initialize()` succeeds iff
the negotiated format tag is PCM or IEEE float and the channel count is 1
or 2 — the bit depth is not examined by `initialize()` at all.  A PCM bit
depth outside {16, 32} instead degrades at conversion time: the converter
zero-fills the output buffer. -/
theorem C4_formatValidation (env : OsEnv)
    (h1 : env.coInitOk = true) (h2 : env.createEnumeratorOk = true)
    (h3 : env.getEndpointOk = true) (h4 : env.activateOk = true)
    (h5 : env.getMixFormatOk = true) (h6 : env.clientInitOk = true)
    (h7 : env.getServiceOk = true) (h8 : env.createEventOk = true) :
    ((wasapiInit env initState).1 = true ↔
      ((env.mixFormat.wFormatTag = FormatTag.pcm ∨
        env.mixFormat.wFormatTag = FormatTag.ieeeFloat) ∧
       1 ≤ env.mixFormat.nChannels ∧ env.mixFormat.nChannels ≤ 2)) ∧
    (∀ (src : RawBytes) (n : ℕ), 0 < n →
      env.mixFormat.wFormatTag = FormatTag.pcm →
      env.mixFormat.wBitsPerSample ≠ 16 → env.mixFormat.wBitsPerSample ≠ 32 →
      convertToFloat32 env.mixFormat src n =
        List.replicate (n * env.mixFormat.nChannels) 0) := by
  constructor
  · simp only [wasapiInit, initState, releaseCom, h1, h2, h3, h4, h5, h6, h7, h8]
    norm_num
    split_ifs with ha hb
    · simp only [Bool.false_eq_true, false_iff]
      intro hcontra
      exact absurd hcontra.1 (by tauto)
    · simp only [Bool.false_eq_true, false_iff]
      intro hcontra
      omega
    · simp only [true_iff]
      refine ⟨by tauto, by omega⟩
  · intro src n hn htag h16 h32
    simp [convertToFloat32, hn.ne', htag, h16, h32, formatTag_pcm_ne_ieee]

/-- C4 (witness): the amended claim at the 24-bit stereo PCM format —
`initialize()` succeeds, and the converter zero-fills a one-frame
buffer. -/
theorem C4_witness :
    (wasapiInit
        ⟨true, true, true, true, true, ⟨FormatTag.pcm, 2, 24, 48000⟩,
          true, true, true, true, true⟩ initState).1 = true ∧
    convertToFloat32 ⟨FormatTag.pcm, 2, 24, 48000⟩
        ⟨fun _ => 0, fun _ => 0, fun _ => 7⟩ 1 = List.replicate (1 * 2) 0 := by
  have h := C4_formatValidation
    ⟨true, true, true, true, true, ⟨FormatTag.pcm, 2, 24, 48000⟩,
      true, true, true, true, true⟩ rfl rfl rfl rfl rfl rfl rfl rfl
  exact ⟨h.1.mpr ⟨Or.inl rfl, by norm_num, by norm_num⟩,
    h.2 ⟨fun _ => 0, fun _ => 0, fun _ => 7⟩ 1 (by norm_num) rfl (by norm_num) (by norm_num)⟩

/-! ## Claim C7 -/

/-- C7: `start()` is idempotent — already capturing means a successful
no-op; whenever `start()` fails from a non-capturing state the engine is
left not capturing; and in the specific rollback case (clients present,
the device stream started, thread creation failed) the device stream is
stopped again and the call returns false. -/
theorem C7_startRollback (env : OsEnv) (s : CaptureState) :
    (s.capturing = true → startCapture env s = (true, s)) ∧
    (s.capturing = false → (startCapture env s).1 = false →
      (startCapture env s).2.capturing = false) ∧
    (s.capturing = false → s.audioClient = true → s.captureClient = true →
      env.clientStartOk = true → env.threadCreateOk = false →
      (startCapture env s).1 = false ∧
      (startCapture env s).2.capturing = false ∧
      (startCapture env s).2.deviceStarted = false) := by
  refine ⟨fun hc => by simp [startCapture, hc], fun hc => ?_, fun hc hac hcc hst hth => ?_⟩
  · simp only [startCapture, hc]
    split_ifs <;> simp [hc]
  · simp [startCapture, hc, hac, hcc, hst, hth]

/-- C7 (witness): from a state holding both clients, with the device
start succeeding and thread creation failing, `start()` returns false
with the capturing flag clear and the device stream stopped; and from a
capturing state `start()` is a successful no-op. -/
theorem C7_witness :
    ((startCapture
        ⟨true, true, true, true, true, ⟨FormatTag.ieeeFloat, 2, 32, 48000⟩,
          true, true, true, true, false⟩
        { initState with audioClient := true, captureClient := true, stopEvent := true }).1
      = false ∧
     (startCapture
        ⟨true, true, true, true, true, ⟨FormatTag.ieeeFloat, 2, 32, 48000⟩,
          true, true, true, true, false⟩
        { initState with audioClient := true, captureClient := true, stopEvent := true }).2.capturing
      = false ∧
     (startCapture
        ⟨true, true, true, true, true, ⟨FormatTag.ieeeFloat, 2, 32, 48000⟩,
          true, true, true, true, false⟩
        { initState with audioClient := true, captureClient := true, stopEvent := true }).2.deviceStarted
      = false) ∧
    startCapture
        ⟨true, true, true, true, true, ⟨FormatTag.ieeeFloat, 2, 32, 48000⟩,
          true, true, true, true, true⟩
        { initState with capturing := true } =
      (true, { initState with capturing := true }) := by
  refine ⟨(C7_startRollback _ _).2.2 rfl rfl rfl rfl rfl, (C7_startRollback _ _).1 rfl⟩

/-! ## Claims C8, C9 -/

theorem captureIteration_balance (e : IterEnv) :
    countAcquires (captureIteration e).2 = countReleases (captureIteration e).2 := by
  rcases e with ⟨stopSig, gb⟩
  cases stopSig
  · cases gb with
    | fail => simp [captureIteration, countAcquires, countReleases]
    | ok frames silent dataNull =>
      by_cases hf : frames = 0 <;> cases dataNull <;>
        simp [captureIteration, countAcquires, countReleases, hf]
  · simp [captureIteration, countAcquires, countReleases]

theorem captureLoop_balance (envs : List IterEnv) :
    countAcquires (captureLoop envs) = countReleases (captureLoop envs) := by
  induction envs with
  | nil => simp [captureLoop, countAcquires, countReleases]
  | cons e rest ih =>
    simp only [captureLoop]
    split
    · simp only [countAcquires, countReleases, List.filter_append, List.length_append]
      have := captureIteration_balance e
      simp only [countAcquires, countReleases] at this
      simp only [countAcquires, countReleases] at ih
      omega
    · exact captureIteration_balance e

/-- C8: in every loop iteration with a successful `GetBuffer`, the buffer
is released exactly once, the release is the iteration's last device
action (so it precedes the next acquisition), and the empty-buffer case is
released with zero frames and no processing; a failed acquisition releases
nothing; over any schedule, releases and successful acquisitions balance
exactly (no double release, no leaked buffer). -/
theorem C8_bufferRelease (env : IterEnv) (h : env.stopSignal = false) :
    (∀ frames silent dataNull,
      env.getBuffer = GetBufferResult.ok frames silent dataNull →
      countAcquires (captureIteration env).2 = 1 ∧
      countReleases (captureIteration env).2 = 1 ∧
      (captureIteration env).2.getLast? = some (DevEvent.release frames) ∧
      (frames = 0 →
        (captureIteration env).2 = [DevEvent.acquire 0, DevEvent.release 0])) ∧
    (env.getBuffer = GetBufferResult.fail →
      countAcquires (captureIteration env).2 = 0 ∧
      countReleases (captureIteration env).2 = 0) ∧
    (∀ envs : List IterEnv,
      countAcquires (captureLoop envs) = countReleases (captureLoop envs)) := by
  refine ⟨fun frames silent dataNull hok => ?_, fun hfail => ?_,
    fun envs => captureLoop_balance envs⟩
  · by_cases hf : frames = 0 <;> cases dataNull <;>
      simp [captureIteration, countAcquires, countReleases, h, hok, hf]
  · simp [captureIteration, countAcquires, countReleases, h, hfail]

/-- C8 (witness): a no-stop iteration delivering an empty packet acquires
once and releases exactly once, with the empty-buffer trace. -/
theorem C8_witness :
    countAcquires (captureIteration ⟨false, GetBufferResult.ok 0 false false⟩).2 = 1 ∧
    countReleases (captureIteration ⟨false, GetBufferResult.ok 0 false false⟩).2 = 1 ∧
    (captureIteration ⟨false, GetBufferResult.ok 0 false false⟩).2 =
      [DevEvent.acquire 0, DevEvent.release 0] := by
  have h := (C8_bufferRelease ⟨false, GetBufferResult.ok 0 false false⟩ rfl).1 0 false false rfl
  exact ⟨h.1, h.2.1, h.2.2.2 rfl⟩

/-- C9: a failed buffer acquisition is absorbed — the iteration emits no
delivery and no error, the loop does not terminate on it (it reports
"continue"), and with that iteration prepended to any schedule the loop
proceeds with the rest of the schedule. -/
theorem C9_transientRetry (env : IterEnv) (rest : List IterEnv)
    (h1 : env.stopSignal = false) (h2 : env.getBuffer = GetBufferResult.fail) :
    captureIteration env = (true, [DevEvent.acquireFail]) ∧
    captureLoop (env :: rest) = DevEvent.acquireFail :: captureLoop rest ∧
    (∀ f, DevEvent.deliver f ∉ (captureIteration env).2) ∧
    (∀ f, DevEvent.release f ∉ (captureIteration env).2) := by
  have hiter : captureIteration env = (true, [DevEvent.acquireFail]) := by
    simp [captureIteration, h1, h2]
  refine ⟨hiter, ?_, ?_, ?_⟩
  · simp [captureLoop, hiter]
  · intro f
    simp [hiter]
  · intro f
    simp [hiter]

/-- C9 (witness): a failed acquisition followed by a successful one — the
loop retries and the successful iteration still runs. -/
theorem C9_witness :
    captureIteration ⟨false, GetBufferResult.fail⟩ = (true, [DevEvent.acquireFail]) ∧
    captureLoop [⟨false, GetBufferResult.fail⟩, ⟨false, GetBufferResult.ok 4 false false⟩] =
      DevEvent.acquireFail ::
        captureLoop [⟨false, GetBufferResult.ok 4 false false⟩] := by
  have h := C9_transientRetry ⟨false, GetBufferResult.fail⟩
    [⟨false, GetBufferResult.ok 4 false false⟩] rfl rfl
  exact ⟨h.1, h.2.1⟩

/-! ## Claim C10 -/

/-- C10: every snapshot the metering adapter produces has
`timestampMs = 0` (the field is assigned the constant 0, never a clock or
device position), and `forwardMeterData` hands exactly that snapshot to
every registered observer, so every forwarded snapshot also has
`timestampMs = 0`. -/
theorem C10_timestampZero (buf : List ℚ) (fc : ℕ) (fmt : AudioFormat)
    (snap : MeterSnapshot)
    (h : meteringOnAudioData (some buf) fc fmt = some snap) :
    snap.timestampMs = 0 ∧
    ∀ (cbs : List CallbackPtr) (p : CallbackPtr × MeterSnapshot),
      p ∈ forwardMeterData cbs snap → p.2.timestampMs = 0 := by
  have hts : snap.timestampMs = 0 := by
    by_cases hfc : fc = 0
    · simp [meteringOnAudioData, hfc] at h
    · simp [meteringOnAudioData, hfc] at h
      rw [← h]
  refine ⟨hts, fun cbs p hp => ?_⟩
  simp only [forwardMeterData, List.mem_filterMap] at hp
  obtain ⟨c, _, hc⟩ := hp
  by_cases hc0 : c = 0
  · simp [hc0] at hc
  · simp only [hc0, if_pos, ne_eq, not_false_iff, Option.some.injEq] at hc
    rw [← hc]
    exact hts

/-- C10 (witness): the snapshot produced for a one-frame mono buffer has
timestamp 0, as does its delivery to the observer 7. -/
theorem C10_witness :
    (MeterSnapshot.mk (peakProcess [0] 1 ⟨48000, 1⟩) (rmsProcess [0] 1 ⟨48000, 1⟩)
        0).timestampMs = 0 ∧
    ∀ p : CallbackPtr × MeterSnapshot,
      p ∈ forwardMeterData [7]
          (MeterSnapshot.mk (peakProcess [0] 1 ⟨48000, 1⟩) (rmsProcess [0] 1 ⟨48000, 1⟩) 0) →
      p.2.timestampMs = 0 := by
  have h := C10_timestampZero [0] 1 ⟨48000, 1⟩
    (MeterSnapshot.mk (peakProcess [0] 1 ⟨48000, 1⟩) (rmsProcess [0] 1 ⟨48000, 1⟩) 0) rfl
  exact ⟨h.1, fun p hp => h.2 [7] p hp⟩

/-! ## Claim C6 -/

theorem stop_of_not_capturing {s : CaptureState} (h : s.capturing = false) : stop s = s := by
  simp [stop, h]

theorem stop_capturing_false (s : CaptureState) : (stop s).capturing = false := by
  by_cases h : s.capturing <;> simp [stop, h]

theorem stop_stop (s : CaptureState) : stop (stop s) = stop s := by
  rcases s with ⟨de, dv, ac, cc, wf, fm, cap, th, se, ss, ci, ds, cbs⟩
  cases cap <;> rfl

theorem shutdown_state (s : CaptureState) :
    (shutdown s).capturing = false ∧ (shutdown s).deviceEnumerator = false ∧
    (shutdown s).device = false ∧ (shutdown s).audioClient = false ∧
    (shutdown s).captureClient = false ∧ (shutdown s).waveFormat = none ∧
    (shutdown s).comInitialized = false ∧ (shutdown s).stopEvent = false := by
  rcases s with ⟨de, dv, ac, cc, wf, fm, cap, th, se, ss, ci, ds, cbs⟩
  cases cap <;> exact ⟨rfl, rfl, rfl, rfl, rfl, rfl, rfl, rfl⟩

theorem shutdown_shutdown (s : CaptureState) : shutdown (shutdown s) = shutdown s := by
  rcases s with ⟨de, dv, ac, cc, wf, fm, cap, th, se, ss, ci, ds, cbs⟩
  cases cap <;> rfl

theorem unregister_idem (l : List CallbackPtr) (c : CallbackPtr) :
    unregisterCallback (unregisterCallback l c) c = unregisterCallback l c := by
  by_cases hc : c = 0
  · simp [unregisterCallback, hc]
  · simp [unregisterCallback, hc, List.filter_filter]

theorem engineShutdown_idem (e : EngineState) :
    engineShutdown (engineShutdown e) = engineShutdown e := by
  rcases e with ⟨cap, ecbs⟩
  rcases cap with ⟨de, dv, ac, cc, wf, fm, cap, th, se, ss, ci, ds, cbs⟩
  cases cap <;>
    simp [engineShutdown, shutdown, stop, releaseCom, releaseAudioClient, unregister_idem]

theorem wasapiInit_succeeds (env : OsEnv) (s0 : CaptureState)
    (h0 : s0.comInitialized = false)
    (h1 : env.coInitOk = true) (h2 : env.createEnumeratorOk = true)
    (h3 : env.getEndpointOk = true) (h4 : env.activateOk = true)
    (h5 : env.getMixFormatOk = true) (h6 : env.clientInitOk = true)
    (h7 : env.getServiceOk = true) (h8 : env.createEventOk = true)
    (htag : env.mixFormat.wFormatTag = FormatTag.pcm ∨
      env.mixFormat.wFormatTag = FormatTag.ieeeFloat)
    (hc1 : 1 ≤ env.mixFormat.nChannels) (hc2 : env.mixFormat.nChannels ≤ 2) :
    (wasapiInit env s0).1 = true := by
  have hta : ¬(env.mixFormat.wFormatTag ≠ FormatTag.pcm ∧
      env.mixFormat.wFormatTag ≠ FormatTag.ieeeFloat) := by tauto
  have hch : ¬(env.mixFormat.nChannels < 1 ∨ 2 < env.mixFormat.nChannels) := by omega
  have hch2 : ¬(env.mixFormat.nChannels = 0 ∨ 2 < env.mixFormat.nChannels) := by omega
  simp [wasapiInit, h0, h1, h2, h3, h4, h5, h6, h7, h8, hta, hch, hch2]

/-- C6: stopping twice is the same as stopping once (the second call is a
no-op since the flag is already clear); shutting down a freshly
constructed capture is the identity (no crash, nothing to release);
shutdown is idempotent; after any shutdown the capture is not capturing
and holds no resource (enumerator, device, clients, wave format, COM,
stop event all released, thread joined); from that state a new
`initialize()` with a healthy device succeeds, so the engine is
re-initializable; and the engine-level shutdown clears all external
callback registrations and is itself idempotent. -/
theorem C6_lifecycle (s : CaptureState) (env : OsEnv) (e : EngineState) :
    stop (stop s) = stop s ∧
    shutdown initState = initState ∧
    shutdown (shutdown s) = shutdown s ∧
    ((shutdown s).capturing = false ∧ (shutdown s).deviceEnumerator = false ∧
     (shutdown s).device = false ∧ (shutdown s).audioClient = false ∧
     (shutdown s).captureClient = false ∧ (shutdown s).waveFormat = none ∧
     (shutdown s).comInitialized = false ∧ (shutdown s).stopEvent = false) ∧
    (env.coInitOk = true → env.createEnumeratorOk = true → env.getEndpointOk = true →
     env.activateOk = true → env.getMixFormatOk = true → env.clientInitOk = true →
     env.getServiceOk = true → env.createEventOk = true →
     (env.mixFormat.wFormatTag = FormatTag.pcm ∨
       env.mixFormat.wFormatTag = FormatTag.ieeeFloat) →
     1 ≤ env.mixFormat.nChannels → env.mixFormat.nChannels ≤ 2 →
     (wasapiInit env (shutdown s)).1 = true) ∧
    (engineShutdown e).engineCallbacks = [] ∧
    engineShutdown (engineShutdown e) = engineShutdown e := by
  refine ⟨stop_stop s, rfl, shutdown_shutdown s, shutdown_state s,
    fun h1 h2 h3 h4 h5 h6 h7 h8 htag hc1 hc2 => ?_, rfl, engineShutdown_idem e⟩
  exact wasapiInit_succeeds env (shutdown s) (shutdown_state s).2.2.2.2.2.2.1
    h1 h2 h3 h4 h5 h6 h7 h8 htag hc1 hc2

/-- C6 (witness): the lifecycle claims at a concrete capturing state and a
healthy stereo float device environment. -/
theorem C6_witness :
    shutdown initState = initState ∧
    (wasapiInit
        ⟨true, true, true, true, true, ⟨FormatTag.ieeeFloat, 2, 32, 48000⟩,
          true, true, true, true, true⟩
        (shutdown { initState with capturing := true, stopEvent := true })).1 = true := by
  have h := C6_lifecycle { initState with capturing := true, stopEvent := true }
    ⟨true, true, true, true, true, ⟨FormatTag.ieeeFloat, 2, 32, 48000⟩,
      true, true, true, true, true⟩ ⟨initState, [3]⟩
  exact ⟨h.2.1, h.2.2.2.2.1 rfl rfl rfl rfl rfl rfl rfl rfl (Or.inr rfl) (by norm_num) (by norm_num)⟩

/-! ## Claim C1 -/

theorem flatMapRange_length (c : ℕ) (g : ℕ → ℕ → ℚ) (n : ℕ) :
    ((List.range n).flatMap (fun f => (List.range c).map (g f))).length = n * c := by
  induction n with
  | zero => simp
  | succ n ih =>
    rw [List.range_succ, List.flatMap_append, List.length_append, ih]
    simp [Nat.succ_mul]

theorem flatMapRange_getElem (c : ℕ) (g : ℕ → ℕ → ℚ) :
    ∀ (n frame ch : ℕ), frame < n → ch < c →
    ((List.range n).flatMap (fun f => (List.range c).map (g f)))[frame * c + ch]? =
      some (g frame ch) := by
  intro n
  induction n with
  | zero => exact fun frame ch hf _ => absurd hf (Nat.not_lt_zero frame)
  | succ n ih =>
    intro frame ch hf hc
    rw [List.range_succ, List.flatMap_append]
    by_cases hfn : frame < n
    · have hbound : frame * c + ch < n * c := by
        have h1 : frame * c + ch < (frame + 1) * c := by
          rw [Nat.succ_mul]
          exact Nat.add_lt_add_left hc (frame * c)
        exact Nat.lt_of_lt_of_le h1 (Nat.mul_le_mul_right c hfn)
      rw [List.getElem?_append, if_pos (by rw [flatMapRange_length]; exact hbound)]
      exact ih frame ch hfn hc
    · have hfe : frame = n := by omega
      subst hfe
      rw [List.getElem?_append,
        if_neg (by rw [flatMapRange_length]; exact Nat.not_lt.mpr (Nat.le_add_right _ _))]
      rw [flatMapRange_length]
      simp only [List.flatMap_cons, List.flatMap_nil, List.append_nil,
        Nat.add_sub_cancel_left, List.getElem?_map]
      rw [List.getElem?_range hc]
      rfl

/-- C1 (counterexample): for a one-frame mono 32-bit PCM buffer holding
the int32 sample 2147483647, the converted sample is exactly 1 (the cast
to float rounds 2147483647 up to 2^31), while the claimed value
2147483647 * (1/2147483648) is strictly less than 1 — so the output does
not equal the source sample times 1/2147483648. -/
theorem C1_counterexample :
    (convertToFloat32 ⟨FormatTag.pcm, 1, 32, 48000⟩
        ⟨fun _ => 0, fun _ => 0, fun _ => 2147483647⟩ 1)[0]? = some 1 ∧
    (1 : ℚ) ≠ 2147483647 * (1 / 2147483648) := by
  constructor
  · norm_num [convertToFloat32, castFloat32, roundNearestEven, Nat.log2,
      List.range_succ, formatTag_pcm_ne_ieee]
  · norm_num

/-- C1 (amended): the converter preserves frame-major, channel-minor
interleaving (output index `frame * channels + ch` comes from the same
source index) and, per format: an IEEE-float source is copied unscaled; a
16-bit PCM sample (necessarily in int16 range) maps exactly to
`sample / 32768`, so 32767 maps to 32767/32768 and -32768 to -1 exactly;
a 32-bit PCM sample maps to its binary32-rounded value (nearest-even at
24 significant bits) times 1/2147483648 — equal to `sample / 2147483648`
exactly whenever the magnitude is at most 2^24. -/
theorem C1_conversion (wf : WaveFormatEx) (src : RawBytes) (numFrames frame ch : ℕ)
    (hf : frame < numFrames) (hch : ch < wf.nChannels) :
    (wf.wFormatTag = FormatTag.ieeeFloat →
      (convertToFloat32 wf src numFrames)[frame * wf.nChannels + ch]? =
        some (src.asFloat32 (frame * wf.nChannels + ch))) ∧
    (wf.wFormatTag = FormatTag.pcm → wf.wBitsPerSample = 16 →
      (src.asInt16 (frame * wf.nChannels + ch)).natAbs ≤ 32768 →
      (convertToFloat32 wf src numFrames)[frame * wf.nChannels + ch]? =
        some ((src.asInt16 (frame * wf.nChannels + ch) : ℚ) / 32768)) ∧
    (wf.wFormatTag = FormatTag.pcm → wf.wBitsPerSample = 32 →
      (convertToFloat32 wf src numFrames)[frame * wf.nChannels + ch]? =
        some (castFloat32 (src.asInt32 (frame * wf.nChannels + ch)) * (1 / 2147483648))) ∧
    (wf.wFormatTag = FormatTag.pcm → wf.wBitsPerSample = 32 →
      (src.asInt32 (frame * wf.nChannels + ch)).natAbs ≤ 2 ^ 24 →
      (convertToFloat32 wf src numFrames)[frame * wf.nChannels + ch]? =
        some ((src.asInt32 (frame * wf.nChannels + ch) : ℚ) / 2147483648)) := by
  have hn : numFrames ≠ 0 := by omega
  have hidx : frame * wf.nChannels + ch < numFrames * wf.nChannels := by
    have h1 : frame * wf.nChannels + ch < (frame + 1) * wf.nChannels := by
      rw [Nat.succ_mul]
      exact Nat.add_lt_add_left hch (frame * wf.nChannels)
    exact Nat.lt_of_lt_of_le h1 (Nat.mul_le_mul_right wf.nChannels hf)
  refine ⟨fun htag => ?_, fun htag h16 hrange => ?_, fun htag h32 => ?_,
    fun htag h32 hrange => ?_⟩
  · simp only [convertToFloat32, hn, if_neg, htag, if_pos, ite_false, ite_true]
    rw [List.getElem?_map, List.getElem?_range hidx]
    rfl
  · simp only [convertToFloat32, hn, htag, h16, formatTag_pcm_ne_ieee, ite_false,
      ite_true, if_false, if_true]
    rw [flatMapRange_getElem wf.nChannels _ numFrames frame ch hf hch,
      castFloat32_eq_self (le_trans hrange (by norm_num))]
    norm_num
    ring
  · simp only [convertToFloat32, hn, htag, h32, formatTag_pcm_ne_ieee, ite_false,
      ite_true, if_false, if_true]
    norm_num
    exact flatMapRange_getElem wf.nChannels _ numFrames frame ch hf hch
  · simp only [convertToFloat32, hn, htag, h32, formatTag_pcm_ne_ieee, ite_false,
      ite_true, if_false, if_true]
    norm_num
    rw [flatMapRange_getElem wf.nChannels _ numFrames frame ch hf hch,
      castFloat32_eq_self hrange]
    ring_nf

/-- C1 (witness): a one-frame stereo 16-bit PCM buffer with samples 32767
and -32768 converts to 32767/32768 and exactly -1, at the interleaved
positions 0 and 1. -/
theorem C1_witness :
    (convertToFloat32 ⟨FormatTag.pcm, 2, 16, 48000⟩
        ⟨fun _ => 0, fun i => if i = 0 then 32767 else -32768, fun _ => 0⟩ 1)[0]? =
      some ((32767 : ℚ) / 32768) ∧
    (convertToFloat32 ⟨FormatTag.pcm, 2, 16, 48000⟩
        ⟨fun _ => 0, fun i => if i = 0 then 32767 else -32768, fun _ => 0⟩ 1)[1]? =
      some ((-32768 : ℚ) / 32768) := by
  constructor
  · have h := (C1_conversion ⟨FormatTag.pcm, 2, 16, 48000⟩
      ⟨fun _ => 0, fun i => if i = 0 then 32767 else -32768, fun _ => 0⟩ 1 0 0
      (by norm_num) (by norm_num)).2.1 rfl rfl (by norm_num)
    simpa using h
  · have h := (C1_conversion ⟨FormatTag.pcm, 2, 16, 48000⟩
      ⟨fun _ => 0, fun i => if i = 0 then 32767 else -32768, fun _ => 0⟩ 1 0 1
      (by norm_num) (by norm_num)).2.1 rfl rfl (by norm_num)
    simpa using h

/-! ## Claim C2 -/

theorem getD_replicate_zero (m i : ℕ) : (List.replicate m (0 : ℚ)).getD i 0 = 0 := by
  rcases Nat.lt_or_ge i m with h | h
  · simp [List.getD, List.getElem?_replicate, h]
  · have hlen : (List.replicate m (0 : ℚ)).length ≤ i := by simpa using h
    simp [List.getD, List.getElem?_eq_none hlen]

theorem channelSamples_replicate_zero (m c fc ch : ℕ) :
    channelSamples (List.replicate m 0) c fc ch = List.replicate fc 0 := by
  unfold channelSamples
  rw [show (fun frame => (List.replicate m (0 : ℚ)).getD (frame * c + ch) 0) =
      (fun _ => (0 : ℚ)) from funext (fun frame => getD_replicate_zero m (frame * c + ch))]
  simp

theorem foldr_max_abs_replicate_zero (fc : ℕ) :
    (List.replicate fc (0 : ℚ)).foldr (fun x m => max |x| m) 0 = 0 := by
  induction fc with
  | zero => rfl
  | succ k ih => simp [List.replicate_succ, ih]

theorem peakChannel_replicate_zero (m c fc ch : ℕ) :
    peakChannel (List.replicate m 0) c fc ch = 0 := by
  unfold peakChannel
  rw [channelSamples_replicate_zero, foldr_max_abs_replicate_zero]
  simp [clamp01]

theorem sumSquares_replicate_zero (m c fc ch : ℕ) :
    sumSquares (List.replicate m 0) c fc ch = 0 := by
  unfold sumSquares
  rw [channelSamples_replicate_zero]
  induction fc with
  | zero => rfl
  | succ k ih => simpa [List.replicate_succ] using ih

theorem rmsChannel_replicate_zero (m c fc ch : ℕ) :
    rmsChannel (List.replicate m 0) c fc ch = 0 := by
  unfold rmsChannel
  split
  · rfl
  · rw [sumSquares_replicate_zero]
    simp [clamp01R]

theorem peakProcess_replicate_zero (m fc : ℕ) (fmt : AudioFormat) :
    peakProcess (List.replicate m 0) fc fmt = ⟨0, 0⟩ := by
  unfold peakProcess
  split <;> simp [peakChannel_replicate_zero]

theorem rmsProcess_replicate_zero (m fc : ℕ) (fmt : AudioFormat) :
    rmsProcess (List.replicate m 0) fc fmt = ⟨0, 0⟩ := by
  unfold rmsProcess
  split <;> simp [rmsChannel_replicate_zero]

/-- C2: for a buffer the device flags silent (with a positive frame
count), `processAudioData` produces the all-zero normalized buffer of
`frameCount * samplesPerFrame` samples, does so without consulting the raw
bytes at all (any two raw buffers give the same result — conversion is
skipped), and the snapshot the metering adapter then produces has peak and
RMS exactly 0 on both channels. -/
theorem C2_silence (prev : List ℚ) (fmt : AudioFormat) (wf : WaveFormatEx)
    (src src' : RawBytes) (n : ℕ) (hn : 0 < n) :
    processAudioData prev fmt wf (some src) n true =
      List.replicate (n * fmt.samplesPerFrame) 0 ∧
    processAudioData prev fmt wf (some src') n true =
      processAudioData prev fmt wf (some src) n true ∧
    ∀ snap,
      meteringOnAudioData (some (processAudioData prev fmt wf (some src) n true)) n fmt =
        some snap →
      snap.peak.left = 0 ∧ snap.peak.right = 0 ∧ snap.rms.left = 0 ∧ snap.rms.right = 0 := by
  have hbuf : processAudioData prev fmt wf (some src) n true =
      List.replicate (n * fmt.samplesPerFrame) 0 := by
    simp [processAudioData, hn.ne']
  refine ⟨hbuf, by simp [processAudioData, hn.ne'], fun snap h => ?_⟩
  rw [hbuf] at h
  simp only [meteringOnAudioData, hn.ne', if_neg, ite_false, Option.some.injEq] at h
  rw [← h]
  simp [peakProcess_replicate_zero, rmsProcess_replicate_zero]

/-- C2 (witness): one silent stereo frame yields the buffer [0, 0] and a
snapshot with zero peak and RMS on both channels. -/
theorem C2_witness :
    processAudioData [] ⟨48000, 2⟩ ⟨FormatTag.ieeeFloat, 2, 32, 48000⟩
        (some ⟨fun _ => 5, fun _ => 7, fun _ => 9⟩) 1 true =
      List.replicate (1 * AudioFormat.samplesPerFrame ⟨48000, 2⟩) 0 ∧
    ((MeterSnapshot.mk
        (peakProcess (processAudioData [] ⟨48000, 2⟩ ⟨FormatTag.ieeeFloat, 2, 32, 48000⟩
          (some ⟨fun _ => 5, fun _ => 7, fun _ => 9⟩) 1 true) 1 ⟨48000, 2⟩)
        (rmsProcess (processAudioData [] ⟨48000, 2⟩ ⟨FormatTag.ieeeFloat, 2, 32, 48000⟩
          (some ⟨fun _ => 5, fun _ => 7, fun _ => 9⟩) 1 true) 1 ⟨48000, 2⟩)
        0).peak.left = 0 ∧
     (MeterSnapshot.mk
        (peakProcess (processAudioData [] ⟨48000, 2⟩ ⟨FormatTag.ieeeFloat, 2, 32, 48000⟩
          (some ⟨fun _ => 5, fun _ => 7, fun _ => 9⟩) 1 true) 1 ⟨48000, 2⟩)
        (rmsProcess (processAudioData [] ⟨48000, 2⟩ ⟨FormatTag.ieeeFloat, 2, 32, 48000⟩
          (some ⟨fun _ => 5, fun _ => 7, fun _ => 9⟩) 1 true) 1 ⟨48000, 2⟩)
        0).rms.right = 0) := by
  have h := C2_silence [] ⟨48000, 2⟩ ⟨FormatTag.ieeeFloat, 2, 32, 48000⟩
    ⟨fun _ => 5, fun _ => 7, fun _ => 9⟩ ⟨fun _ => 5, fun _ => 7, fun _ => 9⟩ 1
    (by norm_num)
  have hsnap := h.2.2 (MeterSnapshot.mk
    (peakProcess (processAudioData [] ⟨48000, 2⟩ ⟨FormatTag.ieeeFloat, 2, 32, 48000⟩
      (some ⟨fun _ => 5, fun _ => 7, fun _ => 9⟩) 1 true) 1 ⟨48000, 2⟩)
    (rmsProcess (processAudioData [] ⟨48000, 2⟩ ⟨FormatTag.ieeeFloat, 2, 32, 48000⟩
      (some ⟨fun _ => 5, fun _ => 7, fun _ => 9⟩) 1 true) 1 ⟨48000, 2⟩)
    0) rfl
  exact ⟨h.1, hsnap.1, hsnap.2.2.2⟩

end OpenMeters
